import Mathlib

/-!
Shallow embedding of the PokeAlarm event-processing engine
(src/PokeAlarm/Manager.py and src/PokeAlarm/Events/StopEvent.py).

Python dicts used by the Manager (filters, rules, the channel-id map, the
cache stores) are embedded as association lists with first-match lookup and
in-place replacement on assignment; OrderedDict iteration order is the list
order.  Times are absolute UTC seconds (Nat); coordinates are rationals;
`None` / Unknown sentinels are `Option.none`.  Triggering an alarm
(`_trigger_mon` and friends) is embedded as emitting a `Dispatch` record
carrying the alarm name and a snapshot of the event, one per alarm name of
the rule that resolves to a configured alarm; the greenlet spawn/join and
the data-bag enrichment do not affect which dispatches happen.
-/

namespace PokeAlarm

/-- Association-list lookup, embedding Python `dict.get` / `dict[k]`. -/
def AList.get? {κ β : Type} [DecidableEq κ] : List (κ × β) → κ → Option β
  | [], _ => none
  | (k0, v) :: rest, k => if k0 = k then some v else AList.get? rest k

/-- Association-list assignment, embedding Python `dict[k] = v`:
replaces the first binding of the key, or appends a new one. -/
def AList.set {κ β : Type} [DecidableEq κ] : List (κ × β) → κ → β → List (κ × β)
  | [], k, v => [(k, v)]
  | (k0, v0) :: rest, k, v =>
      if k0 = k then (k, v) :: rest else (k0, v0) :: AList.set rest k v

/-- `Rule = namedtuple('Rule', ['filter_names', 'alarm_names'])` (Manager.py:29). -/
structure Rule where
  filter_names : List String
  alarm_names : List String

/-- Modelled from the spec: a Filter is "a named boolean predicate evaluator
over a typed event, carrying an optional geofence-name restriction list and
per-filter custom template fields" (the Filters module is not under src/).
`check_event` is the predicate, `geofences` the optional allowlist (absent
means unrestricted), `custom_dts` the template-field overlay.  The spec's
`reject` call logs only, so it is a no-op here. -/
structure Filter (α : Type) where
  check_event : α → Bool
  geofences : Option (List String)
  custom_dts : List (String × String)

/-- Modelled from the spec: a Geofence is "a named region exposing
point-containment and cell-overlap tests" (the Geofence module is not under
src/).  `containsF` is `contains(lat, lng)`; `overlapF` is `check_overlap`
on a weather event's cell id.  Per the loader contract the Manager's
geofence mapping maps each geofence's name to the geofence, so the
dictionary key equals `get_name()`. -/
structure Geofence where
  name : String
  containsF : Rat → Rat → Bool
  overlapF : Nat → Bool

/-- Modelled from the spec: the Expiring State Cache (the Cache module is
not under src/): "per-entity TTL store plus a small set of mutable latest
known value slots (facility name/description/image, team id, weather
condition)".  Timestamp entries are "implicitly expired and eligible for
replacement once the stored time has passed", so an expired entry behaves
as a miss on lookup; latest-value slots are overwritten on every
observation and have no TTL. -/
structure Cache where
  monster_hist : List (String × Nat)
  egg_hist : List (String × Nat)
  raid_hist : List (String × Nat)
  gym_names : List (String × String)
  gym_descs : List (String × String)
  gym_images : List (String × String)
  gym_teams : List (String × Nat)
  cell_weather : List (Nat × String)

/-- Modelled from the spec: `cache.monster_expiration(enc_id)` (getter form)
returns the stored suppression expiration, or None once the stored time has
passed. -/
def Cache.monster_expiration (c : Cache) (now : Nat) (id : String) : Option Nat :=
  match AList.get? c.monster_hist id with
  | some t => if t < now then none else some t
  | none => none

/-- Modelled from the spec: `cache.monster_expiration(enc_id, t)` (setter form). -/
def Cache.set_monster_expiration (c : Cache) (id : String) (t : Nat) : Cache :=
  { c with monster_hist := AList.set c.monster_hist id t }

/-- Modelled from the spec: `cache.egg_expiration(gym_id)` getter form. -/
def Cache.egg_expiration (c : Cache) (now : Nat) (id : String) : Option Nat :=
  match AList.get? c.egg_hist id with
  | some t => if t < now then none else some t
  | none => none

/-- Modelled from the spec: `cache.egg_expiration(gym_id, t)` setter form. -/
def Cache.set_egg_expiration (c : Cache) (id : String) (t : Nat) : Cache :=
  { c with egg_hist := AList.set c.egg_hist id t }

/-- Modelled from the spec: `cache.raid_expiration(gym_id)` getter form. -/
def Cache.raid_expiration (c : Cache) (now : Nat) (id : String) : Option Nat :=
  match AList.get? c.raid_hist id with
  | some t => if t < now then none else some t
  | none => none

/-- Modelled from the spec: `cache.raid_expiration(gym_id, t)` setter form. -/
def Cache.set_raid_expiration (c : Cache) (id : String) (t : Nat) : Cache :=
  { c with raid_hist := AList.set c.raid_hist id t }

/-- Modelled from the spec: `cache.gym_name(gym_id, observed)`: a latest
known value slot, overwritten when the observation is a known value and
read back otherwise; returns the freshest value (none = still unknown). -/
def Cache.gym_name (c : Cache) (id : String) (obs : Option String) :
    Option String × Cache :=
  match obs with
  | some v => (some v, { c with gym_names := AList.set c.gym_names id v })
  | none => (AList.get? c.gym_names id, c)

/-- Modelled from the spec: `cache.gym_desc(gym_id, observed)`. -/
def Cache.gym_desc (c : Cache) (id : String) (obs : Option String) :
    Option String × Cache :=
  match obs with
  | some v => (some v, { c with gym_descs := AList.set c.gym_descs id v })
  | none => (AList.get? c.gym_descs id, c)

/-- Modelled from the spec: `cache.gym_image(gym_id, observed)`. -/
def Cache.gym_image (c : Cache) (id : String) (obs : Option String) :
    Option String × Cache :=
  match obs with
  | some v => (some v, { c with gym_images := AList.set c.gym_images id v })
  | none => (AList.get? c.gym_images id, c)

/-- Modelled from the spec: `cache.gym_team(gym_id)` read form (none = unknown). -/
def Cache.gym_team_read (c : Cache) (id : String) : Option Nat :=
  AList.get? c.gym_teams id

/-- Modelled from the spec: `cache.gym_team(gym_id, team)` write form. -/
def Cache.gym_team_write (c : Cache) (id : String) (team : Nat) : Cache :=
  { c with gym_teams := AList.set c.gym_teams id team }

/-- Modelled from the spec: `cache.get_cell_weather(cell_id)`. -/
def Cache.get_cell_weather (c : Cache) (cell : Nat) : Option String :=
  AList.get? c.cell_weather cell

/-- Modelled from the spec: `cache.update_cell_weather(cell_id, condition)`. -/
def Cache.update_cell_weather (c : Cache) (cell : Nat) (cond : String) : Cache :=
  { c with cell_weather := AList.set c.cell_weather cell cond }

/-- Modelled from the spec: "pure functions computing geodesic distance and
cardinal bearing between two coordinates", consumed and "not re-specified
in depth" (the Utils module is not under src/); only purity and the
argument list matter to the claims, so a simple pure stand-in is used. -/
def get_earth_dist (a b : Rat × Rat) : Rat :=
  |a.1 - b.1| + |a.2 - b.2|

/-- Modelled from the spec: cardinal bearing between two coordinates
(see `get_earth_dist`). -/
def get_cardinal_dir (a b : Rat × Rat) : String :=
  if b.1 ≤ a.1 then "N" else "S"

/-- Event variant for creature spawns (Events.MonEvent); immutable payload
fields first, then the processing-scratch fields the Manager populates. -/
structure MonEvent where
  enc_id : String
  monster_id : Nat
  disappear_time : Nat
  lat : Rat
  lng : Rat
  name : String
  distance : Option Rat
  direction : Option String
  geofence : Option String
  geofence_list : List String
  custom_dts : List (String × String)
  channel_id : Option String
deriving DecidableEq

/-- Event variant for facility-control changes (Events.GymEvent). -/
structure GymEvent where
  gym_id : String
  gym_name : Option String
  gym_description : Option String
  gym_image : Option String
  new_team_id : Nat
  old_team_id : Option Nat
  lat : Rat
  lng : Rat
  name : String
  distance : Option Rat
  direction : Option String
  geofence : Option String
  custom_dts : List (String × String)
deriving DecidableEq

/-- Event variant for facility-battle eggs (Events.EggEvent). -/
structure EggEvent where
  gym_id : String
  hatch_time : Nat
  gym_name : Option String
  gym_description : Option String
  gym_image : Option String
  current_team_id : Option Nat
  lat : Rat
  lng : Rat
  name : String
  distance : Option Rat
  direction : Option String
  geofence : Option String
  geofence_list : List String
  custom_dts : List (String × String)
  channel_id : Option String
deriving DecidableEq

/-- Event variant for facility battles (Events.RaidEvent). -/
structure RaidEvent where
  gym_id : String
  raid_end : Nat
  gym_name : Option String
  gym_description : Option String
  gym_image : Option String
  current_team_id : Option Nat
  lat : Rat
  lng : Rat
  name : String
  distance : Option Rat
  direction : Option String
  geofence : Option String
  geofence_list : List String
  custom_dts : List (String × String)
  channel_id : Option String
deriving DecidableEq

/-- Event variant for area weather (Events.WeatherEvent). -/
structure WeatherEvent where
  weather_cell_id : Nat
  condition : String
  name : String
  geofence : Option String
  geofence_list : List String
  custom_dts : List (String × String)
  channel_id : Option String
deriving DecidableEq

/-- Event variant for points of interest (src/PokeAlarm/Events/StopEvent.py). -/
structure StopEvent where
  stop_id : String
  stop_name : String
  url : String
  expiration : Nat
  time_left : Option Int
  lat : Rat
  lng : Rat
  distance : Option Rat
  direction : Option String
  name : String
  geofence : Option String
  geofence_list : List String
  custom_dts : List (String × String)
  channel_id : Option String
  quest : String
  reward : String
  discord_user_id : Int
deriving DecidableEq

/-- Upstream payload parsed by `StopEvent.__init__` (the webhook fields the
constructor reads; optional fields are `data.get` results). -/
structure StopData where
  pokestop_id : String
  stop_name : String
  url : String
  lure_expiration : Option Nat
  latitude : Rat
  longitude : Rat
  quest : String
  reward : String
  discord_user_id : Option Int

/-- `StopEvent.__init__(data)` (StopEvent.py:14-48): a missing lure
expiration defaults to epoch 0 via `check_for_none(float, ..., 0)`; the
scratch fields start at their Unknown sentinels and `geofence_list` starts
empty. -/
def StopEvent.ofData (now : Nat) (d : StopData) : StopEvent :=
  { stop_id := d.pokestop_id
    stop_name := d.stop_name
    url := d.url
    expiration := d.lure_expiration.getD 0
    time_left := some ((d.lure_expiration.getD 0 : Int) - (now : Int))
    lat := d.latitude
    lng := d.longitude
    distance := none
    direction := none
    name := d.pokestop_id
    geofence := none
    geofence_list := []
    custom_dts := []
    channel_id := none
    quest := d.quest
    reward := d.reward
    discord_user_id := d.discord_user_id.getD 0 }

/-- One alarm invocation: `gevent.spawn(alarm.<kind>_alert, dts)` in a
`_trigger_*` method, recorded as the alarm's name plus the snapshot of the
event the data bag is generated from. -/
structure Dispatch (α : Type) where
  alarm : String
  event : α

/-- The body shared by `_trigger_mon` / `_trigger_stop` / `_trigger_gym` /
`_trigger_egg` / `_trigger_raid` / `_trigger_weather`: for each alarm name
of the rule, resolve the alarm instance and invoke its delivery method; an
unknown name is logged and skipped. -/
def trigger {α : Type} (configured : List String) (e : α) (names : List String) :
    List (Dispatch α) :=
  names.filterMap (fun n => if configured.contains n then some ⟨n, e⟩ else none)

/-- The scratch-field accessors the per-kind processing loops use; one
instance per event kind (the loops are textually identical in Manager.py). -/
structure ScratchOps (α : Type) where
  geofence_list : α → List String
  set_custom_dts : α → List (String × String) → α
  set_geofence : α → String → α
  set_channel_id : α → String → α

/-- The accessors `match_geofences` (Manager.py:1112-1131) uses. -/
structure GeoOps (α : Type) where
  lat : α → Rat
  lng : α → Rat
  push_geofence : α → String → α

def monScratch : ScratchOps MonEvent :=
  { geofence_list := (·.geofence_list)
    set_custom_dts := fun e v => { e with custom_dts := v }
    set_geofence := fun e v => { e with geofence := some v }
    set_channel_id := fun e v => { e with channel_id := some v } }

def monGeo : GeoOps MonEvent :=
  { lat := (·.lat), lng := (·.lng)
    push_geofence := fun e v => { e with geofence_list := e.geofence_list ++ [v] } }

def stopScratch : ScratchOps StopEvent :=
  { geofence_list := (·.geofence_list)
    set_custom_dts := fun e v => { e with custom_dts := v }
    set_geofence := fun e v => { e with geofence := some v }
    set_channel_id := fun e v => { e with channel_id := some v } }

def eggScratch : ScratchOps EggEvent :=
  { geofence_list := (·.geofence_list)
    set_custom_dts := fun e v => { e with custom_dts := v }
    set_geofence := fun e v => { e with geofence := some v }
    set_channel_id := fun e v => { e with channel_id := some v } }

def eggGeo : GeoOps EggEvent :=
  { lat := (·.lat), lng := (·.lng)
    push_geofence := fun e v => { e with geofence_list := e.geofence_list ++ [v] } }

def raidScratch : ScratchOps RaidEvent :=
  { geofence_list := (·.geofence_list)
    set_custom_dts := fun e v => { e with custom_dts := v }
    set_geofence := fun e v => { e with geofence := some v }
    set_channel_id := fun e v => { e with channel_id := some v } }

def raidGeo : GeoOps RaidEvent :=
  { lat := (·.lat), lng := (·.lng)
    push_geofence := fun e v => { e with geofence_list := e.geofence_list ++ [v] } }

def weatherScratch : ScratchOps WeatherEvent :=
  { geofence_list := (·.geofence_list)
    set_custom_dts := fun e v => { e with custom_dts := v }
    set_geofence := fun e v => { e with geofence := some v }
    set_channel_id := fun e v => { e with channel_id := some v } }

/-- Python `"-" in s`. -/
def hasHyphen (s : String) : Bool := (s.splitOn "-").length ≥ 2

/-- Python `s.split('-')[1]` (only evaluated when the name is hyphenated). -/
def hyphenSecond (s : String) : String := (s.splitOn "-").getD 1 ""

/-- Python `s.split('-')[0]` (a split result is never empty). -/
def hyphenFirst (s : String) : String := (s.splitOn "-").headD s

/-- Python `s.split('-')[-1]`. -/
def hyphenLast (s : String) : String := (s.splitOn "-").getLastD s

/-- The geofence scan of `Manager.match_geofences` (Manager.py:1116-1131):
first containing geofence wins; its name, the "All" sentinel and, for a
hyphenated name, the second hyphen-separated segment are appended to the
event's geofence list.  `none` embeds the False return (no mutation). -/
def matchGeofencesList {α : Type} (ops : GeoOps α) (e : α) :
    List Geofence → Option α
  | [] => none
  | gf :: rest =>
      if gf.containsF (ops.lat e) (ops.lng e) then
        let e1 := ops.push_geofence e gf.name
        let e2 := ops.push_geofence e1 "All"
        some (if hasHyphen gf.name then ops.push_geofence e2 (hyphenSecond gf.name) else e2)
      else matchGeofencesList ops e rest

/-- `Manager.match_geofences` (Manager.py:1112-1131); with no geofences
configured it fails closed. -/
def match_geofences {α : Type} (ops : GeoOps α) (geofences : Option (List Geofence))
    (e : α) : Option α :=
  match geofences with
  | none => none
  | some gfs => matchGeofencesList ops e gfs

/-- The two-level channel-map lookup inside `Manager.get_channel_id`
(Manager.py:1182-1189): geofence name, then the filter name's leading
hyphen-separated segment. -/
def channel_lookup (chan : List (String × List (String × String)))
    (geofence_name filter_name : String) : Option String :=
  match AList.get? chan geofence_name with
  | none => none
  | some sub => AList.get? sub (hyphenFirst filter_name)

/-- `Manager.get_channel_id` (Manager.py:1182-1189): on success the event's
channel id is set and True is returned; a KeyError at either level is
caught, the event is left unchanged and False is returned. -/
def get_channel_id {α : Type} (ops : ScratchOps α)
    (chan : List (String × List (String × String))) (e : α)
    (filter_name geofence_name : String) : Option α :=
  match channel_lookup chan geofence_name filter_name with
  | some c => some (ops.set_channel_id e c)
  | none => none

/-- The per-geofence dispatch loop `for geofence_name in e.geofence_list`
shared verbatim by process_monster (Manager.py:615-628), process_stop,
process_egg, process_raid and process_weather: resolve the channel (soft
failure skips the geofence), overlay the filter's custom fields, set the
resolved geofence (the first list entry when the name is not a configured
geofence key), and trigger the rule's alarms. -/
def geoLoop {α : Type} (ops : ScratchOps α)
    (chan : List (String × List (String × String))) (geoKeys : List String)
    (configured : List String) (filter_name : String) (f : Filter α)
    (alarm_names : List String) (e : α) :
    List String → α × List (Dispatch α)
  | [] => (e, [])
  | g :: rest =>
      match get_channel_id ops chan e filter_name g with
      | none => geoLoop ops chan geoKeys configured filter_name f alarm_names e rest
      | some e1 =>
          let e2 := ops.set_custom_dts e1 f.custom_dts
          let e3 := ops.set_geofence e2
            (if geoKeys.contains g then g else (ops.geofence_list e2).headD "")
          let ds := trigger configured e3 alarm_names
          let r := geoLoop ops chan geoKeys configured filter_name f alarm_names e3 rest
          (r.1, ds ++ r.2)

/-- The per-rule filter loop `for f_name in rule.filter_names` shared by the
non-gym processors (e.g. Manager.py:610-628): a failing filter is skipped;
a passing one runs the per-geofence loop.  The Bool is true when a filter
name resolves to no filter: `None.check_event` raises, the worker loop
catches it, and processing of this event stops (dispatches already made
stand). -/
def filterLoop {α : Type} (ops : ScratchOps α)
    (filters : List (String × Filter α))
    (chan : List (String × List (String × String))) (geoKeys : List String)
    (configured : List String) (alarm_names : List String) (e : α) :
    List String → α × List (Dispatch α) × Bool
  | [] => (e, [], false)
  | fn :: rest =>
      match AList.get? filters fn with
      | none => (e, [], true)
      | some f =>
          if f.check_event e then
            let r1 := geoLoop ops chan geoKeys configured fn f alarm_names e
              (ops.geofence_list e)
            let r2 := filterLoop ops filters chan geoKeys configured alarm_names r1.1 rest
            (r2.1, r1.2 ++ r2.2.1, r2.2.2)
          else filterLoop ops filters chan geoKeys configured alarm_names e rest

/-- The outer rule loop `for r_name, rule in rules.iteritems()` shared by
the non-gym processors (e.g. Manager.py:609-628); the rule name is used
only for logging.  An uncaught exception inside a rule stops the whole
pass. -/
def ruleLoop {α : Type} (ops : ScratchOps α)
    (filters : List (String × Filter α))
    (chan : List (String × List (String × String))) (geoKeys : List String)
    (configured : List String) (e : α) :
    List (String × Rule) → α × List (Dispatch α)
  | [] => (e, [])
  | (_, r) :: rest =>
      let r1 := filterLoop ops filters chan geoKeys configured r.alarm_names e
        r.filter_names
      if r1.2.2 then (r1.1, r1.2.1)
      else
        let r2 := ruleLoop ops filters chan geoKeys configured r1.1 rest
        (r2.1, r1.2.1 ++ r2.2)

/-- The default-rule synthesis `if len(rules) == 0: rules = {"default":
Rule(<all filter names>, <all alarm names>)}` (e.g. Manager.py:605-607). -/
def effective_rules (rules : List (String × Rule)) (filter_names : List String)
    (alarm_names : List String) : List (String × Rule) :=
  if rules.length = 0 then [("default", ⟨filter_names, alarm_names⟩)] else rules

/-- The Manager's configuration surface and engine state read by the
processors (Manager.__init__); read-only after load. -/
structure Manager where
  mons_enabled : Bool
  stops_enabled : Bool
  gyms_enabled : Bool
  ignore_neutral : Bool
  eggs_enabled : Bool
  raids_enabled : Bool
  weather_enabled : Bool
  time_limit : Int
  location : Option (Rat × Rat)
  quiet : Bool
  geofences : Option (List Geofence)
  mon_filters : List (String × Filter MonEvent)
  stop_filters : List (String × Filter StopEvent)
  gym_filters : List (String × Filter GymEvent)
  egg_filters : List (String × Filter EggEvent)
  raid_filters : List (String × Filter RaidEvent)
  weather_filters : List (String × Filter WeatherEvent)
  mon_rules : List (String × Rule)
  stop_rules : List (String × Rule)
  gym_rules : List (String × Rule)
  egg_rules : List (String × Rule)
  raid_rules : List (String × Rule)
  weather_rules : List (String × Rule)
  alarms : List String
  channel_map : List (String × List (String × String))
  pokemon_name : Nat → String

/-- `self.geofences.iterkeys()` at the points where the geofence mapping is
known to be loaded. -/
def Manager.geofence_keys (m : Manager) : List String :=
  (m.geofences.getD []).map (·.name)

/-- `Manager.process_monster` (Manager.py:563-628), returning the cache
after processing and the dispatches issued. -/
def Manager.process_monster (m : Manager) (c : Cache) (now : Nat) (mon : MonEvent) :
    Cache × List (Dispatch MonEvent) :=
  if m.mons_enabled = false then (c, [])
  else
    let mon := { mon with name := m.pokemon_name mon.monster_id }
    if (c.monster_expiration now mon.enc_id).isSome then (c, [])
    else
      let c := c.set_monster_expiration mon.enc_id mon.disappear_time
      if ((mon.disappear_time : Int) - (now : Int)) < m.time_limit then (c, [])
      else
        let mon :=
          match m.location with
          | some loc =>
              { mon with distance := some (get_earth_dist (mon.lat, mon.lng) loc)
                         direction := some (get_cardinal_dir (mon.lat, mon.lng) loc) }
          | none => mon
        match match_geofences monGeo m.geofences mon with
        | none => (c, [])
        | some mon =>
            let rules := effective_rules m.mon_rules (m.mon_filters.map Prod.fst) m.alarms
            (c, (ruleLoop monScratch m.mon_filters m.channel_map m.geofence_keys
                  m.alarms mon rules).2)

/-- `Manager.process_stop` (Manager.py:655-716); the lure dedup and
time-remaining checks are commented out in the source, and no geofence
matching is performed for stops. -/
def Manager.process_stop (m : Manager) (stop : StopEvent) :
    List (Dispatch StopEvent) :=
  if m.stops_enabled = false then []
  else
    let stop :=
      match m.location with
      | some loc =>
          { stop with distance := some (get_earth_dist (stop.lat, stop.lng) loc)
                      direction := some (get_cardinal_dir (stop.lat, stop.lng) loc) }
      | none => stop
    let rules := effective_rules m.stop_rules (m.stop_filters.map Prod.fst) m.alarms
    (ruleLoop stopScratch m.stop_filters m.channel_map m.geofence_keys
      m.alarms stop rules).2

/-- The scan of `Manager.check_geofences` over the filter's target names
(Manager.py:1097-1109): a missing geofence is logged and skipped; the first
containing one sets the event's geofence and passes; otherwise the filter
rejects (a log-only call). -/
def checkGeofencesTargets (gfs : List Geofence) (e : GymEvent) :
    List String → Option GymEvent
  | [] => none
  | n :: rest =>
      match gfs.find? (fun g => g.name = n) with
      | none => checkGeofencesTargets gfs e rest
      | some gf =>
          if gf.containsF e.lat e.lng then some { e with geofence := some n }
          else checkGeofencesTargets gfs e rest

/-- `Manager.check_geofences` (Manager.py:1090-1109), the filter-restricted
geofence test used by the gym processor: with no engine geofences or no
filter allowlist the check passes; a singleton "all" allowlist expands to
every configured geofence. -/
def checkGeofencesCore (geofences : Option (List Geofence)) (f : Filter GymEvent)
    (e : GymEvent) : Option GymEvent :=
  match geofences, f.geofences with
  | none, _ => some e
  | some _, none => some e
  | some gfs, some targets =>
      let targets :=
        if targets.length = 1 ∧ targets.contains "all" then gfs.map (·.name)
        else targets
      checkGeofencesTargets gfs e targets

/-- `Manager.check_geofences` applied to the manager's own geofence set. -/
def Manager.check_geofences (m : Manager) (f : Filter GymEvent) (e : GymEvent) :
    Option GymEvent :=
  checkGeofencesCore m.geofences f e

/-- The gym rule body `for f_name in rule.filter_names` (Manager.py:786-797):
the filter predicate and the filter-restricted geofence check are evaluated
in short-circuit order; the first filter passing both triggers the rule's
alarms once and `break`s to the next rule.  The Bool is true when a filter
name resolves to no filter (the lookup raises and processing stops). -/
def gymFilterLoop (filters : List (String × Filter GymEvent))
    (geofences : Option (List Geofence)) (configured : List String)
    (alarm_names : List String) (e : GymEvent) :
    List String → GymEvent × List (Dispatch GymEvent) × Bool
  | [] => (e, [], false)
  | fn :: rest =>
      match AList.get? filters fn with
      | none => (e, [], true)
      | some f =>
          if f.check_event e then
            match checkGeofencesCore geofences f e with
            | some e1 =>
                let e2 := { e1 with custom_dts := f.custom_dts }
                (e2, trigger configured e2 alarm_names, false)
            | none => gymFilterLoop filters geofences configured alarm_names e rest
          else gymFilterLoop filters geofences configured alarm_names e rest

/-- The gym rule loop (Manager.py:785-797). -/
def gymRuleLoop (filters : List (String × Filter GymEvent))
    (geofences : Option (List Geofence)) (configured : List String) (e : GymEvent) :
    List (String × Rule) → GymEvent × List (Dispatch GymEvent)
  | [] => (e, [])
  | (_, r) :: rest =>
      let r1 := gymFilterLoop filters geofences configured r.alarm_names e
        r.filter_names
      if r1.2.2 then (r1.1, r1.2.1)
      else
        let r2 := gymRuleLoop filters geofences configured r1.1 rest
        (r2.1, r1.2.1 ++ r2.2)

/-- `Manager.process_gym` (Manager.py:743-797). -/
def Manager.process_gym (m : Manager) (c : Cache) (gym : GymEvent) :
    Cache × List (Dispatch GymEvent) :=
  let p1 := c.gym_name gym.gym_id gym.gym_name
  let gym := { gym with gym_name := p1.1 }
  let c := p1.2
  let p2 := c.gym_desc gym.gym_id gym.gym_description
  let gym := { gym with gym_description := p2.1 }
  let c := p2.2
  let p3 := c.gym_image gym.gym_id gym.gym_image
  let gym := { gym with gym_image := p3.1 }
  let c := p3.2
  if m.ignore_neutral ∧ gym.new_team_id = 0 then (c, [])
  else
    let gym := { gym with old_team_id := c.gym_team_read gym.gym_id }
    let c := c.gym_team_write gym.gym_id gym.new_team_id
    if m.gyms_enabled = false then (c, [])
    else if (some gym.new_team_id : Option Nat) = gym.old_team_id then (c, [])
    else
      let gym :=
        match m.location with
        | some loc =>
            { gym with distance := some (get_earth_dist (gym.lat, gym.lng) loc)
                       direction := some (get_cardinal_dir (gym.lat, gym.lng) loc) }
        | none => gym
      let rules := effective_rules m.gym_rules (m.gym_filters.map Prod.fst) m.alarms
      (c, (gymRuleLoop m.gym_filters m.geofences m.alarms gym rules).2)

/-- `Manager.process_egg` (Manager.py:824-895). -/
def Manager.process_egg (m : Manager) (c : Cache) (now : Nat) (egg : EggEvent) :
    Cache × List (Dispatch EggEvent) :=
  let p1 := c.gym_name egg.gym_id egg.gym_name
  let egg := { egg with gym_name := p1.1 }
  let c := p1.2
  let p2 := c.gym_desc egg.gym_id egg.gym_description
  let egg := { egg with gym_description := p2.1 }
  let c := p2.2
  let p3 := c.gym_image egg.gym_id egg.gym_image
  let egg := { egg with gym_image := p3.1 }
  let c := p3.2
  let egg :=
    if egg.current_team_id.isNone then
      { egg with current_team_id := c.gym_team_read egg.gym_id }
    else egg
  if m.eggs_enabled = false then (c, [])
  else if (c.egg_expiration now egg.gym_id).isSome then (c, [])
  else
    let c := c.set_egg_expiration egg.gym_id egg.hatch_time
    if ((egg.hatch_time : Int) - (now : Int)) < m.time_limit then (c, [])
    else
      let egg :=
        match m.location with
        | some loc =>
            { egg with distance := some (get_earth_dist (egg.lat, egg.lng) loc)
                       direction := some (get_cardinal_dir (egg.lat, egg.lng) loc) }
        | none => egg
      match match_geofences eggGeo m.geofences egg with
      | none => (c, [])
      | some egg =>
          let rules := effective_rules m.egg_rules (m.egg_filters.map Prod.fst) m.alarms
          (c, (ruleLoop eggScratch m.egg_filters m.channel_map m.geofence_keys
                m.alarms egg rules).2)

/-- `Manager.process_raid` (Manager.py:922-993). -/
def Manager.process_raid (m : Manager) (c : Cache) (now : Nat) (raid : RaidEvent) :
    Cache × List (Dispatch RaidEvent) :=
  let p1 := c.gym_name raid.gym_id raid.gym_name
  let raid := { raid with gym_name := p1.1 }
  let c := p1.2
  let p2 := c.gym_desc raid.gym_id raid.gym_description
  let raid := { raid with gym_description := p2.1 }
  let c := p2.2
  let p3 := c.gym_image raid.gym_id raid.gym_image
  let raid := { raid with gym_image := p3.1 }
  let c := p3.2
  let raid :=
    if raid.current_team_id.isNone then
      { raid with current_team_id := c.gym_team_read raid.gym_id }
    else raid
  if m.raids_enabled = false then (c, [])
  else if (c.raid_expiration now raid.gym_id).isSome then (c, [])
  else
    let c := c.set_raid_expiration raid.gym_id raid.raid_end
    if ((raid.raid_end : Int) - (now : Int)) < m.time_limit then (c, [])
    else
      let raid :=
        match m.location with
        | some loc =>
            { raid with distance := some (get_earth_dist (raid.lat, raid.lng) loc)
                        direction := some (get_cardinal_dir (raid.lat, raid.lng) loc) }
        | none => raid
      match match_geofences raidGeo m.geofences raid with
      | none => (c, [])
      | some raid =>
          let rules := effective_rules m.raid_rules (m.raid_filters.map Prod.fst) m.alarms
          (c, (ruleLoop raidScratch m.raid_filters m.channel_map m.geofence_keys
                m.alarms raid rules).2)

/-- The geofence scan of `Manager.match_weather_geofences`
(Manager.py:1160-1175): a geofence whose name's last hyphen-separated
segment is already in the event's list is skipped; otherwise on cell
overlap the name and, for a hyphenated name, its second segment are
accumulated. -/
def matchWeatherGeofencesList (w : WeatherEvent) :
    List Geofence → WeatherEvent
  | [] => w
  | gf :: rest =>
      let w1 :=
        if w.geofence_list.contains (hyphenLast gf.name) then w
        else if gf.overlapF w.weather_cell_id then
          let wa := { w with geofence_list := w.geofence_list ++ [gf.name] }
          if hasHyphen gf.name then
            { wa with geofence_list := wa.geofence_list ++ [hyphenSecond gf.name] }
          else wa
        else w
      matchWeatherGeofencesList w1 rest

/-- `Manager.match_weather_geofences` (Manager.py:1156-1180): accumulate
overlapping geofences; fail when none matched, otherwise append the "All"
sentinel. -/
def Manager.match_weather_geofences (m : Manager) (w : WeatherEvent) :
    Option WeatherEvent :=
  match m.geofences with
  | none => none
  | some gfs =>
      let w1 := matchWeatherGeofencesList w gfs
      if w1.geofence_list.isEmpty then none
      else some { w1 with geofence_list := w1.geofence_list ++ ["All"] }

/-- `Manager.process_weather` (Manager.py:1020-1070). -/
def Manager.process_weather (m : Manager) (c : Cache) (w : WeatherEvent) :
    Cache × List (Dispatch WeatherEvent) :=
  if m.weather_enabled = false then (c, [])
  else if c.get_cell_weather w.weather_cell_id = some w.condition then (c, [])
  else
    let c := c.update_cell_weather w.weather_cell_id w.condition
    match m.match_weather_geofences w with
    | none => (c, [])
    | some w =>
        let rules := effective_rules m.weather_rules
          (m.weather_filters.map Prod.fst) m.alarms
        (c, (ruleLoop weatherScratch m.weather_filters m.channel_map
              m.geofence_keys m.alarms w rules).2)

/-- A value in the outbound data bag (heterogeneous Python dict values). -/
inductive DtsVal where
  | s : String → DtsVal
  | q : Rat → DtsVal
  | i : Int → DtsVal
  | l : List String → DtsVal
deriving DecidableEq

/-- Left-pad a number to five digits. -/
def pad5 (n : Nat) : String :=
  let s := toString n
  String.mk (List.replicate (5 - s.length) '0') ++ s

/-- Modelled from the spec/Python builtin: the fixed-point formatting
`"\x7b:.5f\x7d".format(x)` to five decimal places (an external string
builtin; the exact tie-breaking of the rounding is immaterial to the
claims, which only compare which coordinate is formatted). -/
def formatDec5 (x : Rat) : String :=
  let scaled : Int := ⌊x * 100000 + 1 / 2⌋
  let sign := if scaled < 0 then "-" else ""
  let a := scaled.natAbs
  sign ++ toString (a / 100000) ++ "." ++ pad5 (a % 100000)

/-- Plain rendering of a rational coordinate (a stand-in for Python float
string conversion in the modelled link helpers). -/
def coordStr (x : Rat) : String :=
  toString x.num ++ "/" ++ toString x.den

/-- Modelled from the spec: locale/label formatting helper
`get_time_as_str(expiration, timezone)` from the Utils module (not under
src/), returning (time left, 12h time, 24h time) strings. -/
def get_time_as_str (t : Nat) (timezone : String) : String × String × String :=
  (toString t ++ "s", toString t ++ timezone, toString t)

/-- Modelled from the spec: `get_dist_as_str(distance, units)` from the
Utils module (not under src/). -/
def get_dist_as_str (d : Rat) (units : String) : String :=
  coordStr d ++ units

/-- Modelled from the spec: `get_gmaps_link(lat, lng)` location link from
the Utils module (not under src/). -/
def get_gmaps_link (lat lng : Rat) : String :=
  "http://maps.google.com/maps?q=" ++ coordStr lat ++ "," ++ coordStr lng

/-- Modelled from the spec: `get_applemaps_link(lat, lng)` location link
from the Utils module (not under src/). -/
def get_applemaps_link (lat lng : Rat) : String :=
  "http://maps.apple.com/maps?daddr=" ++ coordStr lat ++ "," ++ coordStr lng

/-- `StopEvent.generate_dts` (StopEvent.py:50-83): a copy of the custom
overlay updated with the generated fields, so a generated key shadows a
custom one.  Note the source maps both 'lat_5' and 'lng_5' to the
formatted latitude. -/
def StopEvent.generate_dts (e : StopEvent) (timezone units : String) :
    List (String × DtsVal) :=
  let time := get_time_as_str e.expiration timezone
  [("stop_id", DtsVal.s e.stop_id),
   ("stop_name", DtsVal.s e.stop_name),
   ("stop_url", DtsVal.s e.url),
   ("time_left", DtsVal.s time.1),
   ("12h_time", DtsVal.s time.2.1),
   ("24h_time", DtsVal.s time.2.2),
   ("lat", DtsVal.q e.lat),
   ("lng", DtsVal.q e.lng),
   ("lat_5", DtsVal.s (formatDec5 e.lat)),
   ("lng_5", DtsVal.s (formatDec5 e.lat)),
   ("distance", DtsVal.s (match e.distance with
     | some d => get_dist_as_str d units
     | none => "?")),
   ("direction", DtsVal.s (e.direction.getD "?")),
   ("gmaps", DtsVal.s (get_gmaps_link e.lat e.lng)),
   ("applemaps", DtsVal.s (get_applemaps_link e.lat e.lng)),
   ("geofence", DtsVal.s (e.geofence.getD "unknown")),
   ("geofence_list", DtsVal.l e.geofence_list),
   ("channel_id", DtsVal.s (e.channel_id.getD "unknown")),
   ("quest", DtsVal.s e.quest),
   ("reward", DtsVal.s e.reward),
   ("submission_phrase", DtsVal.s
     (if 0 < e.discord_user_id then
        "\n**Submitted by: <@&" ++ toString e.discord_user_id ++ ">"
      else ""))]
  ++ e.custom_dts.map (fun p => (p.1, DtsVal.s p.2))

/-! Concrete sample configuration and events, used to evaluate the model on
closed inputs. -/

/-- An empty cache store. -/
def cache0 : Cache :=
  { monster_hist := [], egg_hist := [], raid_hist := [], gym_names := []
    gym_descs := [], gym_images := [], gym_teams := [], cell_weather := [] }

/-- A sample geofence containing the point (1, 2) and overlapping cell 7. -/
def gf0 : Geofence :=
  { name := "Town-North"
    containsF := fun la ln => la == 1 && ln == 2
    overlapF := fun cid => cid == 7 }

/-- A gym filter that rejects every event. -/
def gymFailF : Filter GymEvent :=
  { check_event := fun _ => false, geofences := none, custom_dts := [] }

/-- A gym filter that accepts every event, with no geofence restriction. -/
def gymPassF : Filter GymEvent :=
  { check_event := fun _ => true, geofences := none, custom_dts := [("k", "v")] }

/-- A monster filter that accepts every event. -/
def monPassF : Filter MonEvent :=
  { check_event := fun _ => true, geofences := none, custom_dts := [] }

/-- A weather filter that accepts every event. -/
def weatherPassF : Filter WeatherEvent :=
  { check_event := fun _ => true, geofences := none, custom_dts := [] }

/-- A sample manager configuration: one alarm, no geofences, no rules. -/
def mgr0 : Manager :=
  { mons_enabled := true, stops_enabled := true, gyms_enabled := true
    ignore_neutral := true, eggs_enabled := true, raids_enabled := true
    weather_enabled := true, time_limit := 60, location := none, quiet := true
    geofences := none, mon_filters := [], stop_filters := [], gym_filters := []
    egg_filters := [], raid_filters := [], weather_filters := [], mon_rules := []
    stop_rules := [], gym_rules := [], egg_rules := [], raid_rules := []
    weather_rules := [], alarms := ["discord"], channel_map := []
    pokemon_name := fun _ => "mon" }

/-- A sample monster event. -/
def mon0 : MonEvent :=
  { enc_id := "e1", monster_id := 150, disappear_time := 1000, lat := 1, lng := 2
    name := "", distance := none, direction := none, geofence := none
    geofence_list := [], custom_dts := [], channel_id := none }

/-- A sample egg event. -/
def egg0 : EggEvent :=
  { gym_id := "g1", hatch_time := 1000, gym_name := none, gym_description := none
    gym_image := none, current_team_id := some 1, lat := 1, lng := 2, name := "egg"
    distance := none, direction := none, geofence := none, geofence_list := []
    custom_dts := [], channel_id := none }

/-- A sample raid event. -/
def raid0 : RaidEvent :=
  { gym_id := "g1", raid_end := 1000, gym_name := none, gym_description := none
    gym_image := none, current_team_id := some 1, lat := 1, lng := 2, name := "raid"
    distance := none, direction := none, geofence := none, geofence_list := []
    custom_dts := [], channel_id := none }

/-- A sample gym event observing a change to the neutral team at gym g1. -/
def gym0 : GymEvent :=
  { gym_id := "g1", gym_name := some "Fountain", gym_description := some "d"
    gym_image := some "i", new_team_id := 0, old_team_id := none, lat := 1, lng := 2
    name := "gym", distance := none, direction := none, geofence := none
    custom_dts := [] }

/-- A sample gym event observing a capture by team 2 at gym g1. -/
def gym2 : GymEvent := { gym0 with new_team_id := 2 }

/-- A sample weather event for cell 7. -/
def weather0 : WeatherEvent :=
  { weather_cell_id := 7, condition := "RAIN", name := "w", geofence := none
    geofence_list := [], custom_dts := [], channel_id := none }

/-- A sample upstream stop payload. -/
def stopData0 : StopData :=
  { pokestop_id := "s1", stop_name := "Stop One", url := "u"
    lure_expiration := some 1000, latitude := 1, longitude := 2
    quest := "q", reward := "r", discord_user_id := none }

theorem AList.get?_set_self {κ β : Type} [DecidableEq κ]
    (m : List (κ × β)) (k : κ) (v : β) : AList.get? (AList.set m k v) k = some v := by
  induction m with
  | nil => simp [AList.set, AList.get?]
  | cons p rest ih =>
      by_cases h : p.1 = k
      · simp [AList.set, h, AList.get?]
      · simp [AList.set, h, AList.get?, ih]

theorem AList.get?_set_ne {κ β : Type} [DecidableEq κ]
    (m : List (κ × β)) (k k1 : κ) (v : β) (h : k ≠ k1) :
    AList.get? (AList.set m k v) k1 = AList.get? m k1 := by
  induction m with
  | nil => simp [AList.set, AList.get?, h]
  | cons p rest ih =>
      by_cases h0 : p.1 = k
      · cases p with
        | mk a b => simp_all [AList.set, AList.get?]
      · cases p with
        | mk a b =>
          simp only at h0
          simp [AList.set, h0, AList.get?, ih]

/-! Preservation lemmas: each latest-value cache operation touches only its
own store. -/

@[simp] theorem Cache.gym_name_egg_hist (c : Cache) (id : String) (obs : Option String) :
    ((c.gym_name id obs).2).egg_hist = c.egg_hist := by cases obs <;> rfl

@[simp] theorem Cache.gym_desc_egg_hist (c : Cache) (id : String) (obs : Option String) :
    ((c.gym_desc id obs).2).egg_hist = c.egg_hist := by cases obs <;> rfl

@[simp] theorem Cache.gym_image_egg_hist (c : Cache) (id : String) (obs : Option String) :
    ((c.gym_image id obs).2).egg_hist = c.egg_hist := by cases obs <;> rfl

@[simp] theorem Cache.gym_name_raid_hist (c : Cache) (id : String) (obs : Option String) :
    ((c.gym_name id obs).2).raid_hist = c.raid_hist := by cases obs <;> rfl

@[simp] theorem Cache.gym_desc_raid_hist (c : Cache) (id : String) (obs : Option String) :
    ((c.gym_desc id obs).2).raid_hist = c.raid_hist := by cases obs <;> rfl

@[simp] theorem Cache.gym_image_raid_hist (c : Cache) (id : String) (obs : Option String) :
    ((c.gym_image id obs).2).raid_hist = c.raid_hist := by cases obs <;> rfl

@[simp] theorem Cache.gym_name_gym_teams (c : Cache) (id : String) (obs : Option String) :
    ((c.gym_name id obs).2).gym_teams = c.gym_teams := by cases obs <;> rfl

@[simp] theorem Cache.gym_desc_gym_teams (c : Cache) (id : String) (obs : Option String) :
    ((c.gym_desc id obs).2).gym_teams = c.gym_teams := by cases obs <;> rfl

@[simp] theorem Cache.gym_image_gym_teams (c : Cache) (id : String) (obs : Option String) :
    ((c.gym_image id obs).2).gym_teams = c.gym_teams := by cases obs <;> rfl

@[simp] theorem Cache.gym_desc_gym_names (c : Cache) (id : String) (obs : Option String) :
    ((c.gym_desc id obs).2).gym_names = c.gym_names := by cases obs <;> rfl

@[simp] theorem Cache.gym_image_gym_names (c : Cache) (id : String) (obs : Option String) :
    ((c.gym_image id obs).2).gym_names = c.gym_names := by cases obs <;> rfl

@[simp] theorem Cache.gym_team_write_gym_names (c : Cache) (id : String) (t : Nat) :
    (c.gym_team_write id t).gym_names = c.gym_names := rfl

@[simp] theorem Cache.gym_image_gym_descs (c : Cache) (id : String) (obs : Option String) :
    ((c.gym_image id obs).2).gym_descs = c.gym_descs := by cases obs <;> rfl

@[simp] theorem Cache.gym_team_write_gym_descs (c : Cache) (id : String) (t : Nat) :
    (c.gym_team_write id t).gym_descs = c.gym_descs := rfl

@[simp] theorem Cache.gym_team_write_gym_images (c : Cache) (id : String) (t : Nat) :
    (c.gym_team_write id t).gym_images = c.gym_images := rfl

@[simp] theorem Cache.gym_team_write_gym_teams (c : Cache) (id : String) (t : Nat) :
    (c.gym_team_write id t).gym_teams = AList.set c.gym_teams id t := rfl

/-- The expiration getters read only their own store. -/
theorem Cache.egg_expiration_congr (c d : Cache) (h : c.egg_hist = d.egg_hist)
    (now : Nat) (id : String) : c.egg_expiration now id = d.egg_expiration now id := by
  simp [Cache.egg_expiration, h]

theorem Cache.raid_expiration_congr (c d : Cache) (h : c.raid_hist = d.raid_hist)
    (now : Nat) (id : String) : c.raid_expiration now id = d.raid_expiration now id := by
  simp [Cache.raid_expiration, h]

/-- Dedup gate of the monster processor (Manager.py:575-580): a hit on the
suppression store drops the event with no dispatch. -/
theorem process_monster_dup_drop (m : Manager) (c : Cache) (now : Nat)
    (mon : MonEvent) (h : (c.monster_expiration now mon.enc_id).isSome) :
    (m.process_monster c now mon).2 = [] := by
  unfold Manager.process_monster
  split
  · rfl
  · simp [h]

/-- Dedup gate of the egg processor (Manager.py:843-848). -/
theorem process_egg_dup_drop (m : Manager) (c : Cache) (now : Nat)
    (egg : EggEvent) (h : (c.egg_expiration now egg.gym_id).isSome) :
    (m.process_egg c now egg).2 = [] := by
  unfold Manager.process_egg
  have h3 : ((((c.gym_name egg.gym_id egg.gym_name).2.gym_desc egg.gym_id
      egg.gym_description).2.gym_image egg.gym_id egg.gym_image).2.egg_expiration
      now egg.gym_id).isSome := by
    rw [Cache.egg_expiration_congr _ c (by simp)]
    exact h
  split
  · rfl
  · cases hct : egg.current_team_id <;> simp [hct, h3]

/-- Dedup gate of the raid processor (Manager.py:941-946). -/
theorem process_raid_dup_drop (m : Manager) (c : Cache) (now : Nat)
    (raid : RaidEvent) (h : (c.raid_expiration now raid.gym_id).isSome) :
    (m.process_raid c now raid).2 = [] := by
  unfold Manager.process_raid
  have h3 : ((((c.gym_name raid.gym_id raid.gym_name).2.gym_desc raid.gym_id
      raid.gym_description).2.gym_image raid.gym_id raid.gym_image).2.raid_expiration
      now raid.gym_id).isSome := by
    rw [Cache.raid_expiration_congr _ c (by simp)]
    exact h
  split
  · rfl
  · cases hct : raid.current_team_id <;> simp [hct, h3]

/-- Time-remaining gate of the monster processor (Manager.py:582-588). -/
theorem process_monster_time_drop (m : Manager) (c : Cache) (now : Nat)
    (mon : MonEvent) (h : ((mon.disappear_time : Int) - (now : Int)) < m.time_limit) :
    (m.process_monster c now mon).2 = [] := by
  unfold Manager.process_monster
  split
  · rfl
  · by_cases hd : (c.monster_expiration now mon.enc_id).isSome = true
    · simp [hd]
    · simp [hd, h]

/-- Time-remaining gate of the egg processor (Manager.py:850-855). -/
theorem process_egg_time_drop (m : Manager) (c : Cache) (now : Nat)
    (egg : EggEvent) (h : ((egg.hatch_time : Int) - (now : Int)) < m.time_limit) :
    (m.process_egg c now egg).2 = [] := by
  unfold Manager.process_egg
  split
  · rfl
  · by_cases hd : ((((c.gym_name egg.gym_id egg.gym_name).2.gym_desc egg.gym_id
        egg.gym_description).2.gym_image egg.gym_id egg.gym_image).2.egg_expiration
        now egg.gym_id).isSome = true
    · cases hct : egg.current_team_id <;> simp [hct, hd]
    · cases hct : egg.current_team_id <;> simp [hct, hd, h]

/-- Time-remaining gate of the raid processor (Manager.py:948-953). -/
theorem process_raid_time_drop (m : Manager) (c : Cache) (now : Nat)
    (raid : RaidEvent) (h : ((raid.raid_end : Int) - (now : Int)) < m.time_limit) :
    (m.process_raid c now raid).2 = [] := by
  unfold Manager.process_raid
  split
  · rfl
  · by_cases hd : ((((c.gym_name raid.gym_id raid.gym_name).2.gym_desc raid.gym_id
        raid.gym_description).2.gym_image raid.gym_id raid.gym_image).2.raid_expiration
        now raid.gym_id).isSome = true
    · cases hct : raid.current_team_id <;> simp [hct, hd]
    · cases hct : raid.current_team_id <;> simp [hct, hd, h]

/-- With an empty geofence list, the per-geofence loop issues nothing, so a
passing filter leaves the event unchanged and dispatches nothing. -/
theorem filterLoop_nil_geofences {α : Type} (ops : ScratchOps α)
    (filters : List (String × Filter α))
    (chan : List (String × List (String × String))) (geoKeys : List String)
    (configured : List String) (alarm_names : List String) (e : α)
    (fns : List String) (h : ops.geofence_list e = []) :
    (filterLoop ops filters chan geoKeys configured alarm_names e fns).1 = e ∧
    (filterLoop ops filters chan geoKeys configured alarm_names e fns).2.1 = [] := by
  induction fns with
  | nil => exact ⟨rfl, rfl⟩
  | cons fn rest ih =>
      unfold filterLoop
      cases hf : AList.get? filters fn with
      | none => exact ⟨rfl, rfl⟩
      | some f =>
          by_cases hc : f.check_event e
          · simp only [hc, if_true, h, geoLoop]
            exact ⟨ih.1, by simp [ih.2]⟩
          · simp only [hc, if_false]
            exact ih

/-- With an empty geofence list, an entire rule pass dispatches nothing. -/
theorem ruleLoop_nil_geofences {α : Type} (ops : ScratchOps α)
    (filters : List (String × Filter α))
    (chan : List (String × List (String × String))) (geoKeys : List String)
    (configured : List String) (e : α)
    (rules : List (String × Rule)) (h : ops.geofence_list e = []) :
    (ruleLoop ops filters chan geoKeys configured e rules).2 = [] := by
  induction rules generalizing e with
  | nil => rfl
  | cons r rest ih =>
      obtain ⟨rn, rr⟩ := r
      unfold ruleLoop
      have hf := filterLoop_nil_geofences ops filters chan geoKeys configured
        rr.alarm_names e rr.filter_names h
      by_cases hab :
          (filterLoop ops filters chan geoKeys configured rr.alarm_names e
            rr.filter_names).2.2 = true
      · simp [hab, hf.2]
      · simp only [Bool.not_eq_true] at hab
        simp [hab, hf.2, hf.1, ih e h]

/-- A stop event whose geofence list is empty (as every freshly constructed
stop event is) produces no dispatch at all: the dispatch loop iterates the
empty geofence list. -/
theorem process_stop_nil_geofences (m : Manager) (stop : StopEvent)
    (h : stop.geofence_list = []) : m.process_stop stop = [] := by
  unfold Manager.process_stop
  split
  · rfl
  · cases hl : m.location with
    | none =>
        simp only [hl]
        exact ruleLoop_nil_geofences _ _ _ _ _ _ _ h
    | some loc =>
        simp only [hl]
        exact ruleLoop_nil_geofences _ _ _ _ _ _ _ (by simp [stopScratch, h])

/-- C1: for every creature, facility-battle-egg, or facility-battle event
whose entity id (encounter id or gym id) has a non-expired suppression
entry in the cache at processing time, processing triggers no dispatch to
any alarm, regardless of configured filters or rules (Manager.py:575-580,
843-848, 941-946). -/
theorem claim_C1 :
    (∀ (m : Manager) (c : Cache) (now : Nat) (mon : MonEvent),
      (c.monster_expiration now mon.enc_id).isSome →
      (m.process_monster c now mon).2 = []) ∧
    (∀ (m : Manager) (c : Cache) (now : Nat) (egg : EggEvent),
      (c.egg_expiration now egg.gym_id).isSome →
      (m.process_egg c now egg).2 = []) ∧
    (∀ (m : Manager) (c : Cache) (now : Nat) (raid : RaidEvent),
      (c.raid_expiration now raid.gym_id).isSome →
      (m.process_raid c now raid).2 = []) :=
  ⟨fun m c now mon h => process_monster_dup_drop m c now mon h,
   fun m c now egg h => process_egg_dup_drop m c now egg h,
   fun m c now raid h => process_raid_dup_drop m c now raid h⟩

/-- C1 witness: a cached, non-expired entry for monster e1 suppresses the
event even though the manager has no rules (so every filter would bind to
every alarm). -/
theorem claim_C1_witness :
    ((({ cache0 with monster_hist := [("e1", 500)] } : Cache).monster_expiration
        100 mon0.enc_id).isSome = true) ∧
    (mgr0.process_monster { cache0 with monster_hist := [("e1", 500)] } 100 mon0).2
      = [] :=
  ⟨by decide,
   claim_C1.1 mgr0 { cache0 with monster_hist := [("e1", 500)] } 100 mon0 (by decide)⟩

/-- C2: for every processed event carrying a remaining lifetime, a time
remaining at processing strictly below the configured minimum yields no
dispatch (Manager.py:582-588, 850-855, 948-953).  For point-of-interest
events the dedup and time checks are commented out in the source
(Manager.py:665-681), but a freshly constructed stop event has an empty
geofence list and the stop processor never fills it, so a stop event never
dispatches at all, and in particular not when its lure time remaining is
below the minimum. -/
theorem claim_C2 :
    (∀ (m : Manager) (c : Cache) (now : Nat) (mon : MonEvent),
      ((mon.disappear_time : Int) - (now : Int)) < m.time_limit →
      (m.process_monster c now mon).2 = []) ∧
    (∀ (m : Manager) (c : Cache) (now : Nat) (egg : EggEvent),
      ((egg.hatch_time : Int) - (now : Int)) < m.time_limit →
      (m.process_egg c now egg).2 = []) ∧
    (∀ (m : Manager) (c : Cache) (now : Nat) (raid : RaidEvent),
      ((raid.raid_end : Int) - (now : Int)) < m.time_limit →
      (m.process_raid c now raid).2 = []) ∧
    (∀ (m : Manager) (now : Nat) (d : StopData),
      (((d.lure_expiration.getD 0 : Nat) : Int) - (now : Int)) < m.time_limit →
      m.process_stop (StopEvent.ofData now d) = []) :=
  ⟨fun m c now mon h => process_monster_time_drop m c now mon h,
   fun m c now egg h => process_egg_time_drop m c now egg h,
   fun m c now raid h => process_raid_time_drop m c now raid h,
   fun m now d _ => process_stop_nil_geofences m (StopEvent.ofData now d) rfl⟩

/-- C2 witness: events with 5 seconds left against a 60-second minimum. -/
theorem claim_C2_witness :
    (((mon0.disappear_time : Int) - (995 : Nat)) < mgr0.time_limit ∧
      (mgr0.process_monster cache0 995 mon0).2 = []) ∧
    (((egg0.hatch_time : Int) - (995 : Nat)) < mgr0.time_limit ∧
      (mgr0.process_egg cache0 995 egg0).2 = []) ∧
    (((raid0.raid_end : Int) - (995 : Nat)) < mgr0.time_limit ∧
      (mgr0.process_raid cache0 995 raid0).2 = []) ∧
    ((((stopData0.lure_expiration.getD 0 : Nat) : Int) - (995 : Nat)) < mgr0.time_limit ∧
      mgr0.process_stop (StopEvent.ofData 995 stopData0) = []) :=
  ⟨⟨by decide, claim_C2.1 mgr0 cache0 995 mon0 (by decide)⟩,
   ⟨by decide, claim_C2.2.1 mgr0 cache0 995 egg0 (by decide)⟩,
   ⟨by decide, claim_C2.2.2.1 mgr0 cache0 995 raid0 (by decide)⟩,
   ⟨by decide, claim_C2.2.2.2 mgr0 995 stopData0 (by decide)⟩⟩

/-- C3: for every event kind, processing with zero configured rules is
identical (same cache result, same dispatches with the same alarm names and
event snapshots) to processing with exactly one rule — under any name —
binding every filter of that kind to every configured alarm
(Manager.py:603-607 and the analogous block in every processor); the rule
name is used only for logging. -/
theorem claim_C3 :
    (∀ (m : Manager) (n : String) (c : Cache) (now : Nat) (mon : MonEvent),
      Manager.process_monster { m with mon_rules := [] } c now mon =
      Manager.process_monster
        { m with mon_rules := [(n, ⟨m.mon_filters.map Prod.fst, m.alarms⟩)] }
        c now mon) ∧
    (∀ (m : Manager) (n : String) (stop : StopEvent),
      Manager.process_stop { m with stop_rules := [] } stop =
      Manager.process_stop
        { m with stop_rules := [(n, ⟨m.stop_filters.map Prod.fst, m.alarms⟩)] }
        stop) ∧
    (∀ (m : Manager) (n : String) (c : Cache) (gym : GymEvent),
      Manager.process_gym { m with gym_rules := [] } c gym =
      Manager.process_gym
        { m with gym_rules := [(n, ⟨m.gym_filters.map Prod.fst, m.alarms⟩)] }
        c gym) ∧
    (∀ (m : Manager) (n : String) (c : Cache) (now : Nat) (egg : EggEvent),
      Manager.process_egg { m with egg_rules := [] } c now egg =
      Manager.process_egg
        { m with egg_rules := [(n, ⟨m.egg_filters.map Prod.fst, m.alarms⟩)] }
        c now egg) ∧
    (∀ (m : Manager) (n : String) (c : Cache) (now : Nat) (raid : RaidEvent),
      Manager.process_raid { m with raid_rules := [] } c now raid =
      Manager.process_raid
        { m with raid_rules := [(n, ⟨m.raid_filters.map Prod.fst, m.alarms⟩)] }
        c now raid) ∧
    (∀ (m : Manager) (n : String) (c : Cache) (w : WeatherEvent),
      Manager.process_weather { m with weather_rules := [] } c w =
      Manager.process_weather
        { m with weather_rules := [(n, ⟨m.weather_filters.map Prod.fst, m.alarms⟩)] }
        c w) :=
  ⟨fun _ _ _ _ _ => rfl, fun _ _ _ => rfl, fun _ _ _ _ => rfl,
   fun _ _ _ _ _ => rfl, fun _ _ _ _ _ => rfl, fun _ _ _ _ => rfl⟩

/-- C10: in the data bag generated for a stop event, the key lng_5 holds the
event's latitude formatted to five decimal places — identical to lat_5 —
while the key lng holds the unformatted longitude (StopEvent.py:66-69). -/
theorem claim_C10 :
    ∀ (e : StopEvent) (timezone units : String),
      AList.get? (e.generate_dts timezone units) "lng_5" =
        some (DtsVal.s (formatDec5 e.lat)) ∧
      AList.get? (e.generate_dts timezone units) "lng_5" =
        AList.get? (e.generate_dts timezone units) "lat_5" ∧
      AList.get? (e.generate_dts timezone units) "lng" = some (DtsVal.q e.lng) :=
  fun _ _ _ => ⟨rfl, rfl, rfl⟩

/-- C4: for every facility-control (gym) event and rule, at most one
dispatch (one trigger of the rule's alarm set) is issued: any rule's filter
scan either triggers nothing or triggers exactly once; and the scan stops
at the first filter whose predicate and geofence check both pass — the
result over a filter list with failing prefix and passing head is that one
trigger, independent of the remaining filter names (Manager.py:785-797). -/
theorem claim_C4 :
    (∀ (filters : List (String × Filter GymEvent))
       (geofences : Option (List Geofence)) (configured alarm_names : List String)
       (e : GymEvent) (names : List String),
      (gymFilterLoop filters geofences configured alarm_names e names).2.1 = [] ∨
      ∃ e2, (gymFilterLoop filters geofences configured alarm_names e names).2.1
        = trigger configured e2 alarm_names) ∧
    (∀ (filters : List (String × Filter GymEvent))
       (geofences : Option (List Geofence)) (configured alarm_names : List String)
       (e : GymEvent) (pre : List String) (fn : String) (f : Filter GymEvent)
       (post : List String),
      (∀ fn2 ∈ pre, ∃ f2, AList.get? filters fn2 = some f2 ∧
        (f2.check_event e = false ∨ checkGeofencesCore geofences f2 e = none)) →
      AList.get? filters fn = some f →
      f.check_event e = true →
      ∀ e1, checkGeofencesCore geofences f e = some e1 →
      gymFilterLoop filters geofences configured alarm_names e (pre ++ fn :: post)
        = ({ e1 with custom_dts := f.custom_dts },
           trigger configured { e1 with custom_dts := f.custom_dts } alarm_names,
           false)) := by
  constructor
  · intro filters geofences configured alarm_names e names
    induction names generalizing e with
    | nil => exact Or.inl rfl
    | cons fn rest ih =>
        unfold gymFilterLoop
        cases hf : AList.get? filters fn with
        | none => exact Or.inl rfl
        | some f =>
            by_cases hc : f.check_event e
            · simp only [hc, if_true]
              cases hg : checkGeofencesCore geofences f e with
              | none => exact ih e
              | some e1 => exact Or.inr ⟨_, rfl⟩
            · simp only [hc, if_false]
              exact ih e
  · intro filters geofences configured alarm_names e pre fn f post hpre hf hc e1 hg
    induction pre with
    | nil => simp [gymFilterLoop, hf, hc, hg]
    | cons p rest ih =>
        have hp := hpre p (by simp)
        obtain ⟨f2, hf2, hfail⟩ := hp
        have hrest : ∀ fn2 ∈ rest, ∃ f3, AList.get? filters fn2 = some f3 ∧
            (f3.check_event e = false ∨ checkGeofencesCore geofences f3 e = none) :=
          fun fn2 h2 => hpre fn2 (by simp [h2])
        rcases hfail with hfail | hfail
        · simpa [gymFilterLoop, hf2, hfail] using ih hrest
        · simpa [gymFilterLoop, hf2, hfail] using ih hrest

/-- C4 witness: with a failing filter a, a passing filter b and a trailing
name c, the scan over [a, b, c] triggers exactly once, for filter b. -/
theorem claim_C4_witness :
    AList.get? [("a", gymFailF), ("b", gymPassF)] "b" = some gymPassF ∧
    gymPassF.check_event gym0 = true ∧
    checkGeofencesCore none gymPassF gym0 = some gym0 ∧
    gymFilterLoop [("a", gymFailF), ("b", gymPassF)] none ["discord"] ["discord"]
        gym0 (["a"] ++ "b" :: ["c"])
      = ({ gym0 with custom_dts := gymPassF.custom_dts },
         trigger ["discord"] { gym0 with custom_dts := gymPassF.custom_dts }
           ["discord"], false) :=
  ⟨rfl, rfl, rfl,
   claim_C4.2 [("a", gymFailF), ("b", gymPassF)] none ["discord"] ["discord"]
     gym0 ["a"] "b" gymPassF ["c"]
     (by
       intro fn2 h2
       have h3 : fn2 = "a" := by simpa using h2
       subst h3
       exact ⟨gymFailF, rfl, Or.inl rfl⟩)
     rfl rfl gym0 rfl⟩

/-- The geofence scan with a unique containing geofence: the scan stops at
that geofence and the event's list (starting empty) becomes its name, the
"All" sentinel, and the parent-family token for a hyphenated name. -/
theorem matchGeofencesList_unique (e : MonEvent) (gfs : List Geofence)
    (gf : Geofence) (he : e.geofence_list = []) (hmem : gf ∈ gfs)
    (hcont : gf.containsF e.lat e.lng = true)
    (huniq : ∀ g2 ∈ gfs, g2.containsF e.lat e.lng = true → g2 = gf) :
    ∃ e2, matchGeofencesList monGeo e gfs = some e2 ∧
      e2.geofence_list = [gf.name, "All"]
        ++ (if hasHyphen gf.name then [hyphenSecond gf.name] else []) := by
  induction gfs with
  | nil => cases hmem
  | cons g rest ih =>
      by_cases hg : g.containsF e.lat e.lng = true
      · have heq : g = gf := huniq g (by simp) hg
        subst heq
        by_cases hh : hasHyphen g.name = true
        · exact ⟨{ e with geofence_list :=
              e.geofence_list ++ [g.name, "All", hyphenSecond g.name] },
            by simp [matchGeofencesList, monGeo, hg, hh],
            by simp [he, hh]⟩
        · simp only [Bool.not_eq_true] at hh
          exact ⟨{ e with geofence_list := e.geofence_list ++ [g.name, "All"] },
            by simp [matchGeofencesList, monGeo, hg, hh],
            by simp [he, hh]⟩
      · have hmem2 : gf ∈ rest := by
          rcases List.mem_cons.mp hmem with h | h
          · subst h; exact absurd hcont hg
          · exact h
        have huniq2 : ∀ g2 ∈ rest, g2.containsF e.lat e.lng = true → g2 = gf :=
          fun g2 h2 hc2 => huniq g2 (by simp [h2]) hc2
        obtain ⟨e2, h1, h2⟩ := ih hmem2 huniq2
        have hg3 : g.containsF (monGeo.lat e) (monGeo.lng e) = false := by
          simp only [monGeo]
          simpa using hg
        exact ⟨e2, by simp [matchGeofencesList, hg3, h1], h2⟩

/-- C5: match-mode geofence lookup is deterministic: with a fixed geofence
ordering and a point contained in exactly one configured geofence, the
lookup succeeds on that geofence (its name heads the event's list) and the
resulting list contains exactly the matched name, the "All" sentinel, and —
only for a hyphenated name — the parent-family token
(Manager.py:1112-1131). -/
theorem claim_C5 :
    ∀ (m : Manager) (gfs : List Geofence) (e : MonEvent) (gf : Geofence),
      m.geofences = some gfs →
      e.geofence_list = [] →
      gf ∈ gfs →
      gf.containsF e.lat e.lng = true →
      (∀ g2 ∈ gfs, g2.containsF e.lat e.lng = true → g2 = gf) →
      ∃ e2, match_geofences monGeo m.geofences e = some e2 ∧
        e2.geofence_list.head? = some gf.name ∧
        ∀ s, s ∈ e2.geofence_list ↔
          (s = gf.name ∨ s = "All" ∨
            (hasHyphen gf.name = true ∧ s = hyphenSecond gf.name)) := by
  intro m gfs e gf hgfs he hmem hcont huniq
  obtain ⟨e2, h1, h2⟩ := matchGeofencesList_unique e gfs gf he hmem hcont huniq
  refine ⟨e2, by simp [match_geofences, hgfs, h1], by simp [h2], ?_⟩
  intro s
  by_cases hh : hasHyphen gf.name = true
  · simp only [hh, if_true] at h2
    simp [h2, hh]
  · simp only [Bool.not_eq_true] at hh
    simp only [hh, Bool.false_eq_true, if_false] at h2
    simp [h2, hh]

/-- C5 witness: a single geofence "Town-North" containing (1, 2); the
resulting list is exactly its name, "All", and the family token "North". -/
theorem claim_C5_witness :
    ({ mgr0 with geofences := some [gf0] } : Manager).geofences = some [gf0] ∧
    mon0.geofence_list = [] ∧
    gf0 ∈ [gf0] ∧
    gf0.containsF mon0.lat mon0.lng = true ∧
    (∃ e2, match_geofences monGeo ({ mgr0 with geofences := some [gf0] }
        : Manager).geofences mon0 = some e2 ∧
      e2.geofence_list.head? = some gf0.name ∧
      ∀ s, s ∈ e2.geofence_list ↔
        (s = gf0.name ∨ s = "All" ∨
          (hasHyphen gf0.name = true ∧ s = hyphenSecond gf0.name))) :=
  ⟨rfl, rfl, by simp, rfl,
   claim_C5 { mgr0 with geofences := some [gf0] } [gf0] mon0 gf0 rfl rfl
     (by simp) rfl
     (by
       intro g2 h2 _
       simpa using h2)⟩

/-- C6: channel resolution treats absence at either level of the channel
map as a soft failure: the lookup returns False with the event unchanged
(no exception escapes — the KeyError is caught inside get_channel_id), no
dispatch is issued for that (geofence, filter) pair, and the dispatch loop
continues with the next geofence name (Manager.py:1182-1189, 615-621). -/
theorem claim_C6 :
    ∀ (chan : List (String × List (String × String)))
      (geoKeys configured : List String) (fname : String) (f : Filter MonEvent)
      (alarm_names : List String) (e : MonEvent) (g : String) (rest : List String),
      channel_lookup chan g fname = none →
      get_channel_id monScratch chan e fname g = none ∧
      geoLoop monScratch chan geoKeys configured fname f alarm_names e (g :: rest)
        = geoLoop monScratch chan geoKeys configured fname f alarm_names e rest := by
  intro chan geoKeys configured fname f alarm_names e g rest h
  constructor
  · simp [get_channel_id, h]
  · simp [geoLoop, get_channel_id, h]

/-- C6 witness: an empty channel map fails the lookup for geofence Lake and
filter rare-100, and the loop proceeds to the remaining geofences. -/
theorem claim_C6_witness :
    channel_lookup [] "Lake" "rare-100" = none ∧
    get_channel_id monScratch [] mon0 "rare-100" "Lake" = none ∧
    geoLoop monScratch [] ["Lake"] ["discord"] "rare-100" monPassF ["discord"]
        mon0 ("Lake" :: ["All"])
      = geoLoop monScratch [] ["Lake"] ["discord"] "rare-100" monPassF ["discord"]
        mon0 ["All"] :=
  ⟨rfl,
   (claim_C6 [] ["Lake"] ["discord"] "rare-100" monPassF ["discord"] mon0 "Lake"
     ["All"] rfl).1,
   (claim_C6 [] ["Lake"] ["discord"] "rare-100" monPassF ["discord"] mon0 "Lake"
     ["All"] rfl).2⟩

/-- Cache result of the gym processor: the name/description/image slots are
always refreshed first; the team slot is written only when the
neutral-change-ignore gate does not drop the event (Manager.py:743-769). -/
theorem process_gym_cache (m : Manager) (c : Cache) (gym : GymEvent) :
    (m.process_gym c gym).1 =
      (if m.ignore_neutral = true ∧ gym.new_team_id = 0 then
        (((c.gym_name gym.gym_id gym.gym_name).2.gym_desc gym.gym_id
          gym.gym_description).2.gym_image gym.gym_id gym.gym_image).2
      else
        Cache.gym_team_write
          (((c.gym_name gym.gym_id gym.gym_name).2.gym_desc gym.gym_id
            gym.gym_description).2.gym_image gym.gym_id gym.gym_image).2
          gym.gym_id gym.new_team_id) := by
  unfold Manager.process_gym
  by_cases hn : m.ignore_neutral = true ∧ gym.new_team_id = 0
  · simp [hn]
  · simp only [hn]
    simp [hn]
    split
    · rfl
    · split <;> rfl

/-- An event dropped by the neutral-change-ignore gate dispatches nothing
(Manager.py:753-756). -/
theorem process_gym_neutral_drop (m : Manager) (c : Cache) (gym : GymEvent)
    (hn : m.ignore_neutral = true ∧ gym.new_team_id = 0) :
    (m.process_gym c gym).2 = [] := by
  unfold Manager.process_gym
  simp [hn]

/-- C7 counterexample: with neutral-change-ignore on, a gym event observing
a change to neutral at gym g1 (cached team 1) is dropped by the neutral
gate and the cached team id stays 1 — the newly observed team id 0 is NOT
written back, contradicting the claim that all newly observed values
(including the new team id) are written back before any gating decision,
even when the event is dropped by the neutral-change-ignore gate. -/
theorem claim_C7_counterexample :
    mgr0.ignore_neutral = true ∧ gym0.new_team_id = 0 ∧
    (mgr0.process_gym { cache0 with gym_teams := [("g1", 1)] } gym0).2 = [] ∧
    (mgr0.process_gym { cache0 with gym_teams := [("g1", 1)] } gym0).1.gym_teams
      = [("g1", 1)] :=
  ⟨rfl, rfl, rfl, rfl⟩

/-- C7 (amended): the gym processor pulls and writes back the facility
name/description/image before any gating decision — these writes happen
even when the event is subsequently dropped — and reads the previously
cached team id and writes back the new one before the enablement and
no-change gates; but the team write happens only after the
neutral-change-ignore gate, so an event dropped by that gate leaves the
cached team id unchanged (Manager.py:743-769). -/
theorem claim_C7_amended :
    ∀ (m : Manager) (c : Cache) (gym : GymEvent),
      (∀ v, gym.gym_name = some v →
        AList.get? (m.process_gym c gym).1.gym_names gym.gym_id = some v) ∧
      (∀ v, gym.gym_description = some v →
        AList.get? (m.process_gym c gym).1.gym_descs gym.gym_id = some v) ∧
      (∀ v, gym.gym_image = some v →
        AList.get? (m.process_gym c gym).1.gym_images gym.gym_id = some v) ∧
      (¬(m.ignore_neutral = true ∧ gym.new_team_id = 0) →
        AList.get? (m.process_gym c gym).1.gym_teams gym.gym_id
          = some gym.new_team_id) ∧
      ((m.ignore_neutral = true ∧ gym.new_team_id = 0) →
        (m.process_gym c gym).1.gym_teams = c.gym_teams ∧
        (m.process_gym c gym).2 = []) := by
  intro m c gym
  have hcc := process_gym_cache m c gym
  refine ⟨?_, ?_, ?_, ?_, ?_⟩
  · intro v hv
    rw [hcc]
    by_cases hn : m.ignore_neutral = true ∧ gym.new_team_id = 0 <;>
      simp [hn, hv, Cache.gym_name, AList.get?_set_self]
  · intro v hv
    rw [hcc]
    by_cases hn : m.ignore_neutral = true ∧ gym.new_team_id = 0 <;>
      simp [hn, hv, Cache.gym_desc, AList.get?_set_self]
  · intro v hv
    rw [hcc]
    by_cases hn : m.ignore_neutral = true ∧ gym.new_team_id = 0 <;>
      simp [hn, hv, Cache.gym_image, AList.get?_set_self]
  · intro hn
    rw [hcc]
    simp [hn, AList.get?_set_self]
  · intro hn
    exact ⟨by rw [hcc]; simp [hn], process_gym_neutral_drop m c gym hn⟩

/-- C7 amended witness: a capture by team 2 refreshes the name slot and
writes the team slot. -/
theorem claim_C7_amended_witness :
    gym2.gym_name = some "Fountain" ∧
    AList.get? (mgr0.process_gym cache0 gym2).1.gym_names gym2.gym_id
      = some "Fountain" ∧
    AList.get? (mgr0.process_gym cache0 gym2).1.gym_teams gym2.gym_id
      = some gym2.new_team_id :=
  ⟨rfl,
   (claim_C7_amended mgr0 cache0 gym2).1 "Fountain" rfl,
   (claim_C7_amended mgr0 cache0 gym2).2.2.2.1 (by decide)⟩

/-- C8: a weather event whose cell is cached with the same condition is
dropped with the cache unchanged and no dispatch; an event whose condition
differs updates the cell's cache entry before geofence accumulation and
rule evaluation run — the update stands whatever they produce
(Manager.py:1029-1037). -/
theorem claim_C8 :
    ∀ (m : Manager) (c : Cache) (w : WeatherEvent),
      (c.get_cell_weather w.weather_cell_id = some w.condition →
        m.process_weather c w = (c, [])) ∧
      (m.weather_enabled = true →
        c.get_cell_weather w.weather_cell_id ≠ some w.condition →
        (m.process_weather c w).1
          = c.update_cell_weather w.weather_cell_id w.condition) := by
  intro m c w
  constructor
  · intro h
    unfold Manager.process_weather
    split
    · rfl
    · simp [h]
  · intro h1 h2
    unfold Manager.process_weather
    simp only [h1]
    rw [if_neg (by simp)]
    rw [if_neg h2]
    cases hmw : m.match_weather_geofences w with
    | none => simp [hmw]
    | some w2 => simp [hmw]

/-- C8 witness: cell 7 cached as RAIN drops a RAIN event unchanged; with an
empty cache the RAIN event updates the cell entry. -/
theorem claim_C8_witness :
    (({ cache0 with cell_weather := [(7, "RAIN")] } : Cache).get_cell_weather
        weather0.weather_cell_id = some weather0.condition ∧
      mgr0.process_weather { cache0 with cell_weather := [(7, "RAIN")] } weather0
        = ({ cache0 with cell_weather := [(7, "RAIN")] }, [])) ∧
    (mgr0.weather_enabled = true ∧
      cache0.get_cell_weather weather0.weather_cell_id ≠ some weather0.condition ∧
      (mgr0.process_weather cache0 weather0).1
        = cache0.update_cell_weather weather0.weather_cell_id weather0.condition) :=
  ⟨⟨by decide,
    (claim_C8 mgr0 { cache0 with cell_weather := [(7, "RAIN")] } weather0).1
      (by decide)⟩,
   ⟨rfl, by decide,
    (claim_C8 mgr0 cache0 weather0).2 rfl (by decide)⟩⟩

/-- Cache result of the monster processor when the event is new: the
suppression entry is recorded (before the time-remaining gate) and nothing
later touches the cache (Manager.py:575-588). -/
theorem process_monster_records (m : Manager) (c : Cache) (now : Nat)
    (mon : MonEvent) (hen : m.mons_enabled = true)
    (hnone : c.monster_expiration now mon.enc_id = none) :
    (m.process_monster c now mon).1
      = c.set_monster_expiration mon.enc_id mon.disappear_time := by
  unfold Manager.process_monster
  simp only [hen, hnone]
  simp
  split
  · rfl
  · split <;> rfl

/-- Cache result of the egg processor when the event is new: the gym
metadata slots are refreshed and the suppression entry recorded before the
time-remaining gate (Manager.py:824-855). -/
theorem process_egg_records (m : Manager) (c : Cache) (now : Nat)
    (egg : EggEvent) (hen : m.eggs_enabled = true)
    (hnone : c.egg_expiration now egg.gym_id = none) :
    (m.process_egg c now egg).1
      = Cache.set_egg_expiration
          (((c.gym_name egg.gym_id egg.gym_name).2.gym_desc egg.gym_id
            egg.gym_description).2.gym_image egg.gym_id egg.gym_image).2
          egg.gym_id egg.hatch_time := by
  unfold Manager.process_egg
  have h3 : ((((c.gym_name egg.gym_id egg.gym_name).2.gym_desc egg.gym_id
      egg.gym_description).2.gym_image egg.gym_id egg.gym_image).2.egg_expiration
      now egg.gym_id) = none := by
    rw [Cache.egg_expiration_congr _ c (by simp)]
    exact hnone
  cases hct : egg.current_team_id <;>
    · simp [hct, hen, h3]
      split
      · rfl
      · split <;> rfl

/-- Cache result of the raid processor when the event is new: the gym
metadata slots are refreshed and the suppression entry recorded before the
time-remaining gate (Manager.py:922-953). -/
theorem process_raid_records (m : Manager) (c : Cache) (now : Nat)
    (raid : RaidEvent) (hen : m.raids_enabled = true)
    (hnone : c.raid_expiration now raid.gym_id = none) :
    (m.process_raid c now raid).1
      = Cache.set_raid_expiration
          (((c.gym_name raid.gym_id raid.gym_name).2.gym_desc raid.gym_id
            raid.gym_description).2.gym_image raid.gym_id raid.gym_image).2
          raid.gym_id raid.raid_end := by
  unfold Manager.process_raid
  have h3 : ((((c.gym_name raid.gym_id raid.gym_name).2.gym_desc raid.gym_id
      raid.gym_description).2.gym_image raid.gym_id raid.gym_image).2.raid_expiration
      now raid.gym_id) = none := by
    rw [Cache.raid_expiration_congr _ c (by simp)]
    exact hnone
  cases hct : raid.current_team_id <;>
    · simp [hct, hen, h3]
      split
      · rfl
      · split <;> rfl

/-- C9: a creature, facility-battle-egg, or facility-battle event with no
prior suppression entry records its expiration before the time-remaining
gate is evaluated; consequently every later event with the same entity id
processed before the recorded expiration passes — including the case where
the first event was dropped for too little time remaining — finds the
entry and is dropped with no dispatch (Manager.py:575-588, 843-855,
941-953). -/
theorem claim_C9 :
    (∀ (m : Manager) (c : Cache) (now : Nat) (mon : MonEvent),
      m.mons_enabled = true →
      c.monster_expiration now mon.enc_id = none →
      ∀ (now2 : Nat), now2 ≤ mon.disappear_time →
        ((m.process_monster c now mon).1.monster_expiration now2 mon.enc_id
          = some mon.disappear_time) ∧
        ∀ (mon2 : MonEvent), mon2.enc_id = mon.enc_id →
          (m.process_monster (m.process_monster c now mon).1 now2 mon2).2 = []) ∧
    (∀ (m : Manager) (c : Cache) (now : Nat) (egg : EggEvent),
      m.eggs_enabled = true →
      c.egg_expiration now egg.gym_id = none →
      ∀ (now2 : Nat), now2 ≤ egg.hatch_time →
        ((m.process_egg c now egg).1.egg_expiration now2 egg.gym_id
          = some egg.hatch_time) ∧
        ∀ (egg2 : EggEvent), egg2.gym_id = egg.gym_id →
          (m.process_egg (m.process_egg c now egg).1 now2 egg2).2 = []) ∧
    (∀ (m : Manager) (c : Cache) (now : Nat) (raid : RaidEvent),
      m.raids_enabled = true →
      c.raid_expiration now raid.gym_id = none →
      ∀ (now2 : Nat), now2 ≤ raid.raid_end →
        ((m.process_raid c now raid).1.raid_expiration now2 raid.gym_id
          = some raid.raid_end) ∧
        ∀ (raid2 : RaidEvent), raid2.gym_id = raid.gym_id →
          (m.process_raid (m.process_raid c now raid).1 now2 raid2).2 = []) := by
  refine ⟨?_, ?_, ?_⟩
  · intro m c now mon hen hnone now2 hle
    have hexp : (m.process_monster c now mon).1.monster_expiration now2 mon.enc_id
        = some mon.disappear_time := by
      rw [process_monster_records m c now mon hen hnone]
      simp [Cache.monster_expiration, Cache.set_monster_expiration,
        AList.get?_set_self, Nat.not_lt.mpr hle]
    refine ⟨hexp, fun mon2 h2 => ?_⟩
    exact process_monster_dup_drop m _ now2 mon2 (by rw [h2, hexp]; rfl)
  · intro m c now egg hen hnone now2 hle
    have hexp : (m.process_egg c now egg).1.egg_expiration now2 egg.gym_id
        = some egg.hatch_time := by
      rw [process_egg_records m c now egg hen hnone]
      simp [Cache.egg_expiration, Cache.set_egg_expiration,
        AList.get?_set_self, Nat.not_lt.mpr hle]
    refine ⟨hexp, fun egg2 h2 => ?_⟩
    exact process_egg_dup_drop m _ now2 egg2 (by rw [h2, hexp]; rfl)
  · intro m c now raid hen hnone now2 hle
    have hexp : (m.process_raid c now raid).1.raid_expiration now2 raid.gym_id
        = some raid.raid_end := by
      rw [process_raid_records m c now raid hen hnone]
      simp [Cache.raid_expiration, Cache.set_raid_expiration,
        AList.get?_set_self, Nat.not_lt.mpr hle]
    refine ⟨hexp, fun raid2 h2 => ?_⟩
    exact process_raid_dup_drop m _ now2 raid2 (by rw [h2, hexp]; rfl)

/-- C9 witness: monster e1 and raid g1, each dropped at 995 with only 5 of
the required 60 seconds left, still suppress a repeat event at 996. -/
theorem claim_C9_witness :
    (mgr0.mons_enabled = true ∧
      cache0.monster_expiration 995 mon0.enc_id = none ∧
      (996 ≤ mon0.disappear_time) ∧
      ((mgr0.process_monster cache0 995 mon0).1.monster_expiration 996 mon0.enc_id
        = some mon0.disappear_time) ∧
      (mgr0.process_monster (mgr0.process_monster cache0 995 mon0).1 996 mon0).2
        = []) ∧
    (mgr0.raids_enabled = true ∧
      cache0.raid_expiration 995 raid0.gym_id = none ∧
      (996 ≤ raid0.raid_end) ∧
      ((mgr0.process_raid cache0 995 raid0).1.raid_expiration 996 raid0.gym_id
        = some raid0.raid_end) ∧
      (mgr0.process_raid (mgr0.process_raid cache0 995 raid0).1 996 raid0).2
        = []) :=
  ⟨⟨rfl, by decide, by decide,
    (claim_C9.1 mgr0 cache0 995 mon0 rfl (by decide) 996 (by decide)).1,
    (claim_C9.1 mgr0 cache0 995 mon0 rfl (by decide) 996 (by decide)).2 mon0 rfl⟩,
   ⟨rfl, by decide, by decide,
    (claim_C9.2.2 mgr0 cache0 995 raid0 rfl (by decide) 996 (by decide)).1,
    (claim_C9.2.2 mgr0 cache0 995 raid0 rfl (by decide) 996 (by decide)).2 raid0 rfl⟩⟩

end PokeAlarm
